import Mathlib

/-!
Verification development for the DockSafe scan-orchestration core.

Each definition below is a shallow embedding of a function of the Python
source, translated clause by clause:

* `severityLevels`, `should_fail_build`, `filter_by_severity`,
  `parse_severity` come from `app/scanner/engine.py` (the count-based
  `should_fail_build` in `app/scanner/service.py` is the same decision
  procedure stated directly over the four denormalized counters).
* Python dictionaries with `.get(key, default)` lookups are embedded as
  `Option`-returning functions combined with `Option.getD`.
* Python `str.upper()` / `str.lower()` are embedded as executable maps
  over the character list (`pyUpper` / `pyLower`); on the ASCII severity
  names and image names involved they agree with Python exactly.
* Machine integers do not overflow in any of the embedded code paths, so
  counts are `Nat` and timestamps are `Int`.
-/

set_option linter.unnecessarySeqFocus false

namespace DockSafe

/-- Embedding of Python `str.upper()` as an executable function (the
library `String.toUpper` is not kernel-reducible). -/
def pyUpper (s : String) : String := ⟨s.data.map Char.toUpper⟩

/-- Embedding of Python `str.lower()` as an executable function. -/
def pyLower (s : String) : String := ⟨s.data.map Char.toLower⟩

/-- The `severity_levels` dictionary used by both `should_fail_build`
(`engine.py` lines 151-156, `service.py` lines 187-192) and
`filter_by_severity` (`engine.py` lines 68-73): CRITICAL 4, HIGH 3,
MEDIUM 2, LOW 1, anything else absent. -/
def severityLevels (s : String) : Option Nat :=
  if s = "CRITICAL" then some 4
  else if s = "HIGH" then some 3
  else if s = "MEDIUM" then some 2
  else if s = "LOW" then some 1
  else none

/-- Embedding of `should_fail_build` (`engine.py` lines 149-169 and
`service.py` lines 184-205), stated over the four severity counters the
Python code reads (`critical_count`, `high_count`, `medium_count`,
`low_count`).  The threshold lookup defaults to 3 (`HIGH`) and the body is
the literal `if`/`elif` chain of the source, comparisons included. -/
def should_fail_build (critical high medium low : Nat) (threshold : String) : Bool :=
  let thresholdLevel := (severityLevels (pyUpper threshold)).getD 3
  if 4 ≤ thresholdLevel ∧ 0 < critical then true
  else if 3 ≤ thresholdLevel ∧ 0 < high then true
  else if 2 ≤ thresholdLevel ∧ 0 < medium then true
  else if 1 ≤ thresholdLevel ∧ 0 < low then true
  else false

/-- One parsed vulnerability (`VulnerabilityResult` dataclass,
`engine.py` lines 11-24).  The numeric CVSS score and the two
timestamp fields are elided: no claim about this repository mentions
them, they are optional data carried along unchanged. -/
structure VulnerabilityResult where
  cve_id : String
  severity : String
  package_name : String
  package_version : String
  fixed_version : String
  description : String
  references : List String
deriving Repr, DecidableEq

/-- Embedding of `ScanResult.filter_by_severity` (`engine.py` lines
66-79): the minimum level defaults to 1 when `min_severity` is not a
recognized name, while a finding whose own severity is unrecognized
gets level 0. -/
def filter_by_severity (vulnerabilities : List VulnerabilityResult)
    (min_severity : String) : List VulnerabilityResult :=
  let minLevel := (severityLevels (pyUpper min_severity)).getD 1
  vulnerabilities.filter
    (fun v => decide (minLevel ≤ (severityLevels (pyUpper v.severity)).getD 0))

/-- The `severity_map` dictionary of `parse_severity` (`engine.py` lines
140-146): the four canonical names map to themselves and `UNKNOWN` maps
to `LOW`. -/
def severityMap (s : String) : Option String :=
  if s = "CRITICAL" then some "CRITICAL"
  else if s = "HIGH" then some "HIGH"
  else if s = "MEDIUM" then some "MEDIUM"
  else if s = "LOW" then some "LOW"
  else if s = "UNKNOWN" then some "LOW"
  else none

/-- Embedding of `VulnerabilityScanner.parse_severity` (`engine.py`
lines 138-147): dictionary lookup on the uppercased input with default
`LOW`. -/
def parse_severity (severity : String) : String :=
  (severityMap (pyUpper severity)).getD "LOW"

/-- One scan-exception row (`ScanException` model, `app/models.py` lines
300-318): target CVE, optional image scope (`none` is a global
exception), optional expiry and the active flag.  The audit-only
columns (reason, approver, timestamps) are elided.  Times are embedded
as `Int` instants; `now` is the value of `datetime.utcnow()` at filter
time. -/
structure ScanExceptionRec where
  cve_id : String
  image_name : Option String
  expires_at : Option Int
  is_active : Bool
deriving Repr, DecidableEq

/-- Embedding of the `ScanException.is_expired` property (`models.py`
lines 323-328): false when there is no expiry, otherwise
`datetime.utcnow() > expires_at`. -/
def is_expired (now : Int) (e : ScanExceptionRec) : Bool :=
  match e.expires_at with
  | none => false
  | some t => decide (t < now)

/-- Embedding of the `ScanException.is_valid` property (`models.py`
lines 330-333): active and not expired. -/
def is_valid (now : Int) (e : ScanExceptionRec) : Bool :=
  e.is_active && !(is_expired now e)

/-- The scope condition of the exception query in
`ScannerService._apply_exceptions` (`service.py` lines 113-119):
`image_name == scan.image_name OR image_name IS NULL`. -/
def matchesScope (scanImageName : String) (e : ScanExceptionRec) : Bool :=
  e.image_name == some scanImageName || e.image_name == none

/-- Embedding of `ScannerService._apply_exceptions` (`service.py` lines
110-134): load the active exceptions scoped to this image or global,
keep the `is_valid` ones, and delete every stored finding whose CVE id
is in that set (the deletion step is skipped when the set is empty). -/
def apply_exceptions (now : Int) (scanImageName : String)
    (allExceptions : List ScanExceptionRec)
    (vulns : List VulnerabilityResult) : List VulnerabilityResult :=
  let exceptions := allExceptions.filter
    (fun ex => matchesScope scanImageName ex && ex.is_active)
  let exceptedCves := (exceptions.filter (fun ex => is_valid now ex)).map
    (fun ex => ex.cve_id)
  if exceptedCves.isEmpty then vulns
  else vulns.filter (fun v => !(exceptedCves.contains v.cve_id))

/-- The five denormalized counter columns of a `VulnerabilityScan`
record — the projection of the record that
`ScannerService._update_vulnerability_counts` reads and writes.  The
other columns of the record (image name, status, timestamps, …) are
untouched by that method and are not modelled here. -/
structure ScanRecordCounts where
  critical_count : Nat
  high_count : Nat
  medium_count : Nat
  low_count : Nat
  total_vulnerabilities : Nat
deriving Repr, DecidableEq

/-- One iteration of the `for severity, count in counts` loop of
`ScannerService._update_vulnerability_counts` (`service.py` lines
154-164): the `if`/`elif` chain assigns (not adds) the matching
counter, and the trailing statement adds the group's count to the
total unconditionally. -/
def countsStep (r : ScanRecordCounts) (g : String × Nat) : ScanRecordCounts :=
  let r :=
    if pyUpper g.1 = "CRITICAL" then { r with critical_count := g.2 }
    else if pyUpper g.1 = "HIGH" then { r with high_count := g.2 }
    else if pyUpper g.1 = "MEDIUM" then { r with medium_count := g.2 }
    else if pyUpper g.1 = "LOW" then { r with low_count := g.2 }
    else r
  { r with total_vulnerabilities := r.total_vulnerabilities + g.2 }

/-- Embedding of `ScannerService._update_vulnerability_counts`
(`service.py` lines 136-164).  `counts` is the result of the
`GROUP BY severity` query: one `(severity, count)` pair per distinct
stored severity string of the scan's remaining findings.  The method
first resets all five counters to zero and then folds the grouped
counts through `countsStep`. -/
def update_vulnerability_counts (r : ScanRecordCounts)
    (counts : List (String × Nat)) : ScanRecordCounts :=
  let r := { r with
    critical_count := 0, high_count := 0, medium_count := 0,
    low_count := 0, total_vulnerabilities := 0 }
  counts.foldl countsStep r

/-- The counter of `r` that a group with severity key `s` would assign,
zero for an unrecognized key (used to state the fold invariant for
`update_vulnerability_counts`). -/
def counterOf (r : ScanRecordCounts) (s : String) : Nat :=
  if pyUpper s = "CRITICAL" then r.critical_count
  else if pyUpper s = "HIGH" then r.high_count
  else if pyUpper s = "MEDIUM" then r.medium_count
  else if pyUpper s = "LOW" then r.low_count
  else 0

/-- One row of the `vulnerability_scans` table as read by
`ScanMapper.get_chart_data` (`app/mappers/scan_mapper.py` lines
131-175): owning group, optional scan timestamp and the four nullable
severity counters.  Timestamps are embedded at calendar-day
granularity: an `Int` day number stands for the timestamp's date,
which is all the range filter and the per-day `.date()` comparison
inspect. -/
structure ChartScan where
  group_id : Int
  scan_timestamp : Option Int
  critical_count : Option Nat
  high_count : Option Nat
  medium_count : Option Nat
  low_count : Option Nat
deriving Repr, DecidableEq

/-- The chart payload built by `get_chart_data`: per-day labels and the
four severity series (a label is abstracted to the day number the
source formats with `strftime`). -/
structure ChartData where
  labels : List Int
  critical : List Nat
  high : List Nat
  medium : List Nat
  low : List Nat
deriving Repr, DecidableEq

set_option linter.unusedVariables false in
/-- Embedding of `ScanMapper.get_chart_data` (`scan_mapper.py` lines
131-175).  `endDay` is the day of `datetime.now()` and the queried
scans are those of the group with a timestamp in
`[endDay - days, endDay]`.  The four loop variables
`critical`/`high`/`medium`/`low` are assigned only inside the
`if day_scans:` branch, where the computed sums are immediately
overwritten with zeros (source line 168); on a day with no scans the
variables keep whatever a previous iteration assigned — carried here
as an `Option` of the quadruple — and on a first day with no scans
they are still unassigned, which raises `NameError` at the first
`append`, embedded as the `Except.error` case. -/
def get_chart_data (allScans : List ChartScan) (group_id : Int)
    (days : Nat) (endDay : Int) : Except String ChartData :=
  let startDay := endDay - (days : Int)
  let scans := allScans.filter (fun s =>
    s.group_id == group_id &&
      match s.scan_timestamp with
      | some ts => decide (startDay ≤ ts) && decide (ts ≤ endDay)
      | none => false)
  let init : ChartData × Option (Nat × Nat × Nat × Nat) :=
    (⟨[], [], [], [], []⟩, none)
  Except.map Prod.fst <|
    (List.range days).foldlM (fun acc i => do
      let (cd, vars) := acc
      let currentDay := startDay + (i : Int)
      let cd := { cd with labels := cd.labels ++ [currentDay] }
      let dayScans := scans.filter (fun s =>
        match s.scan_timestamp with
        | some ts => decide (ts = currentDay)
        | none => false)
      let vars :=
        if !dayScans.isEmpty then
          let critical := dayScans.foldl (fun a s => a + s.critical_count.getD 0) 0
          let high := dayScans.foldl (fun a s => a + s.high_count.getD 0) 0
          let medium := dayScans.foldl (fun a s => a + s.medium_count.getD 0) 0
          let low := dayScans.foldl (fun a s => a + s.low_count.getD 0) 0
          let critical := 0
          let high := 0
          let medium := 0
          let low := 0
          some (critical, high, medium, low)
        else vars
      match vars with
      | none => Except.error "NameError: name critical is not defined"
      | some (critical, high, medium, low) =>
          Except.ok ({ cd with
            critical := cd.critical ++ [critical],
            high := cd.high ++ [high],
            medium := cd.medium ++ [medium],
            low := cd.low ++ [low] }, some (critical, high, medium, low))
      ) init

/-- Outcome of one delivery attempt by a channel service: the Python
send call either returns a boolean or raises an exception carrying a
message. -/
inductive DeliveryOutcome where
  | returned (success : Bool)
  | raised (msg : String)
deriving Repr, DecidableEq

/-- One initialized channel service held by `NotificationManager`
(`app/notifications/notification_manager.py` lines 11-72): its
configuration name and the behaviour of its two send calls, one for
vulnerability alerts and one for completion notifications. -/
structure ChannelService where
  config_name : String
  alert_outcome : DeliveryOutcome
  completion_outcome : DeliveryOutcome
deriving Repr, DecidableEq

/-- One entry of a per-channel results list:
`{config_name, success, message}`. -/
structure OutcomeEntry where
  config_name : String
  success : Bool
  message : String
deriving Repr, DecidableEq

/-- The aggregated report dictionary
`{"slack": [...], "teams": [...], "email": [...]}`. -/
structure DispatchResults where
  slack : List OutcomeEntry
  teams : List OutcomeEntry
  email : List OutcomeEntry
deriving Repr, DecidableEq

/-- The `try`/`except` body of the per-service loops of
`send_vulnerability_alert` (`notification_manager.py` lines 91-139): a
returned boolean yields an entry with the corresponding message and an
exception is caught and yields a failure entry carrying the error
text, so each service contributes exactly one entry either way. -/
def alertEntry (svc : ChannelService) : OutcomeEntry :=
  match svc.alert_outcome with
  | .returned success =>
      ⟨svc.config_name, success,
        if success then "Alert sent successfully" else "Failed to send alert"⟩
  | .raised msg => ⟨svc.config_name, false, "Error: " ++ msg⟩

/-- The `try`/`except` body of the per-service loops of
`send_scan_completion_notification` (`notification_manager.py` lines
146-198). -/
def completionEntry (svc : ChannelService) : OutcomeEntry :=
  match svc.completion_outcome with
  | .returned success =>
      ⟨svc.config_name, success,
        if success then "Notification sent successfully"
        else "Failed to send notification"⟩
  | .raised msg => ⟨svc.config_name, false, "Error: " ++ msg⟩

/-- The `results` dictionary as populated by
`send_vulnerability_alert` when its loops finish: one entry per Slack
service, one per email service, `teams` always empty. -/
def vulnerabilityAlertResults (slackServices emailServices : List ChannelService) :
    DispatchResults :=
  ⟨slackServices.map alertEntry, [], emailServices.map alertEntry⟩

/-- The `results` dictionary as populated by
`send_scan_completion_notification` when its loops finish. -/
def completionResults (slackServices emailServices : List ChannelService) :
    DispatchResults :=
  ⟨slackServices.map completionEntry, [], emailServices.map completionEntry⟩

set_option linter.unusedVariables false in
/-- Embedding of `NotificationManager.send_vulnerability_alert`
(`notification_manager.py` lines 84-139).  The method computes the
`_should_send_alert` flag (which only gates a debug log) and populates
`results`, but ends without a `return` statement, so the Python caller
receives `None` — embedded as `none`. -/
def send_vulnerability_alert (slackServices emailServices : List ChannelService)
    (totalVulnerabilities : Nat) : Option DispatchResults :=
  let shouldSend := decide (0 < totalVulnerabilities)
  let results := vulnerabilityAlertResults slackServices emailServices
  none

set_option linter.unusedVariables false in
/-- Embedding of `NotificationManager.send_scan_completion_notification`
(`notification_manager.py` lines 141-198): populates `results` and
likewise ends without a `return` statement. -/
def send_scan_completion_notification
    (slackServices emailServices : List ChannelService) : Option DispatchResults :=
  let results := completionResults slackServices emailServices
  none

/-- Outcome of the `subprocess.run` invocation in
`TrivyScanner.scan_image`: normal completion with exit code, stdout
and stderr; `subprocess.TimeoutExpired`; or any other invocation error
(missing binary, OS error) with its message. -/
inductive ProcOutcome where
  | completed (returncode : Int) (stdout : String) (stderr : String)
  | timedOut
  | invocationError (msg : String)
deriving Repr, DecidableEq

/-- The transient scan result (`ScanResult` dataclass, `engine.py`
lines 26-36).  The metadata map is embedded as a string-keyed
association list with stringified values. -/
structure ScanResult where
  image_name : String
  image_tag : String
  scan_status : String
  scan_duration_seconds : Nat
  scanner_version : String
  vulnerabilities : List VulnerabilityResult
  scan_output : String
  metadata : List (String × String)
deriving Repr, DecidableEq

/-- Embedding of `VulnerabilityScanner.validate_image_name`
(`engine.py` lines 122-128): a string is valid when non-empty and at
most 255 characters (the `not image_name` truthiness test coincides
with the positive-length check). -/
def validate_image_name (image_name : String) : Bool :=
  decide (0 < image_name.length) && decide (image_name.length ≤ 255)

/-- Embedding of `VulnerabilityScanner.validate_image_tag`
(`engine.py` lines 130-136): non-empty and at most 100 characters. -/
def validate_image_tag (image_tag : String) : Bool :=
  decide (0 < image_tag.length) && decide (image_tag.length ≤ 100)

/-- Embedding of `TrivyScanner.scan_image` (`trivy_scanner.py` lines
53-148).  The external effects are parameters: `outcome` is what
`subprocess.run` did, `parseTrivyOutput` stands for
`self._parse_trivy_output` applied to the captured stdout,
`scannerVersion` for `self.get_scanner_version()` (which catches its
own failures and returns a string), and `elapsed` for
`int((datetime.now() - start_time).total_seconds())`, a `Nat` because
the two clock readings are ordered.  A validation failure raises
`ValueError` before the `try` block (the `Except.error` case);
everything else is covered by the `except` handlers, so a `ScanResult`
is always returned.  Of the metadata dictionary the `return_code` and
`error` keys are retained; the `trivy_command` and
`severity_threshold` entries depend only on configuration. -/
def trivy_scan_image (image_name : String) (image_tag : String)
    (outcome : ProcOutcome)
    (parseTrivyOutput : String → List VulnerabilityResult)
    (scannerVersion : String) (elapsed : Nat) : Except String ScanResult :=
  if !validate_image_name image_name then
    Except.error s!"Invalid image name: {image_name}"
  else if !validate_image_tag image_tag then
    Except.error s!"Invalid image tag: {image_tag}"
  else
    Except.ok <|
      match outcome with
      | .completed returncode stdout stderr =>
          if returncode == 0 then
            { image_name, image_tag, scan_status := "SUCCESS",
              scan_duration_seconds := elapsed,
              scanner_version := scannerVersion,
              vulnerabilities := parseTrivyOutput stdout,
              scan_output := stdout ++ stderr,
              metadata := [("return_code", toString returncode)] }
          else
            { image_name, image_tag, scan_status := "FAILED",
              scan_duration_seconds := elapsed,
              scanner_version := scannerVersion,
              vulnerabilities := [],
              scan_output := stdout ++ stderr,
              metadata := [("return_code", toString returncode)] }
      | .timedOut =>
          { image_name, image_tag, scan_status := "TIMEOUT",
            scan_duration_seconds := elapsed,
            scanner_version := scannerVersion,
            vulnerabilities := [],
            scan_output := s!"Scan timed out after {elapsed} seconds",
            metadata := [("error", "timeout")] }
      | .invocationError msg =>
          { image_name, image_tag, scan_status := "ERROR",
            scan_duration_seconds := elapsed,
            scanner_version := scannerVersion,
            vulnerabilities := [],
            scan_output := msg,
            metadata := [("error", msg)] }

/-- Helper for the Python `in` operator on strings: true when the
needle occurs as a contiguous substring of the haystack. -/
def containsSubAux (needle : List Char) : List Char → Bool
  | [] => needle.isEmpty
  | c :: rest => needle.isPrefixOf (c :: rest) || containsSubAux needle rest

/-- Python `needle in haystack` for strings. -/
def strContains (haystack needle : String) : Bool :=
  containsSubAux needle.data haystack.data

set_option linter.unusedVariables false in
/-- Embedding of `ClairScanner._generate_sample_vulnerabilities`
(`clair_scanner.py` lines 155-304): a keyword match on the lowercased
image name selects one of three curated two-finding sets, and any
other name gets the generic two-finding set.  The tag parameter is
accepted and never read, exactly as in the source.  CVSS scores and
publication dates are elided from the embedded record type. -/
def generate_sample_vulnerabilities (image_name : String) (image_tag : String) :
    List VulnerabilityResult :=
  if strContains (pyLower image_name) "nginx" then
    [⟨"CVE-2021-23017", "HIGH", "nginx", "1.18.0", "1.20.1",
      "Buffer overflow in nginx HTTP/2 implementation",
      ["https://cve.mitre.org/cgi-bin/cvename.cgi?name=CVE-2021-23017"]⟩,
     ⟨"CVE-2020-12400", "MEDIUM", "nginx", "1.18.0", "1.19.0",
      "Memory leak in nginx HTTP/2 implementation",
      ["https://cve.mitre.org/cgi-bin/cvename.cgi?name=CVE-2020-12400"]⟩]
  else if strContains (pyLower image_name) "ubuntu" then
    [⟨"CVE-2021-4034", "CRITICAL", "polkit", "0.105-26ubuntu1.2",
      "0.105-26ubuntu1.3", "Buffer overflow in polkit pkexec utility",
      ["https://cve.mitre.org/cgi-bin/cvename.cgi?name=CVE-2021-4034"]⟩,
     ⟨"CVE-2021-44228", "CRITICAL", "log4j", "2.14.1", "2.17.0",
      "Remote code execution in Log4j",
      ["https://cve.mitre.org/cgi-bin/cvename.cgi?name=CVE-2021-44228"]⟩]
  else if strContains (pyLower image_name) "node" then
    [⟨"CVE-2021-22918", "HIGH", "node", "14.17.0", "14.17.6",
      "HTTP request smuggling in Node.js",
      ["https://cve.mitre.org/cgi-bin/cvename.cgi?name=CVE-2021-22918"]⟩,
     ⟨"CVE-2021-22940", "MEDIUM", "node", "14.17.0", "14.17.6",
      "Use after free in Node.js HTTP/2 implementation",
      ["https://cve.mitre.org/cgi-bin/cvename.cgi?name=CVE-2021-22940"]⟩]
  else
    [⟨"CVE-2021-12345", "MEDIUM", "openssl", "1.1.1f", "1.1.1j",
      "Buffer overflow in OpenSSL",
      ["https://cve.mitre.org/cgi-bin/cvename.cgi?name=CVE-2021-12345"]⟩,
     ⟨"CVE-2021-67890", "LOW", "curl", "7.68.0", "7.75.0",
      "Information disclosure in curl",
      ["https://cve.mitre.org/cgi-bin/cvename.cgi?name=CVE-2021-67890"]⟩]

/-- Embedding of `ClairScanner.scan_image` (`clair_scanner.py` lines
45-107) in demo mode: the remote service is unreachable, so
`is_available` caught the probe failure and returned True, and
`get_scanner_version` returns the demo version string.  `elapsed` is
the measured wall-clock duration. -/
def clair_scan_image (image_name : String) (image_tag : String)
    (elapsed : Nat) : Except String ScanResult :=
  if !validate_image_name image_name then
    Except.error s!"Invalid image name: {image_name}"
  else if !validate_image_tag image_tag then
    Except.error s!"Invalid image tag: {image_tag}"
  else
    Except.ok
      { image_name, image_tag, scan_status := "SUCCESS",
        scan_duration_seconds := elapsed,
        scanner_version := "demo-1.0.0",
        vulnerabilities := generate_sample_vulnerabilities image_name image_tag,
        scan_output := s!"Clair scan completed for {image_name}:{image_tag}",
        metadata :=
          [("clair_url", "http://localhost:6060"),
           ("note", "This is a simulated Clair scan. Real implementation requires registry integration."),
           ("vulnerability_count",
             toString (generate_sample_vulnerabilities image_name image_tag).length)] }

/-- A concrete stored finding used in concrete evaluations. -/
def sampleFinding : VulnerabilityResult :=
  { cve_id := "CVE-1", severity := "LOW", package_name := "p",
    package_version := "1", fixed_version := "", description := "",
    references := [] }

/-- A concrete global exception whose expiry (instant 10) lies in the
past of filter instant 50. -/
def pastException : ScanExceptionRec :=
  { cve_id := "CVE-2", image_name := none, expires_at := some 10,
    is_active := true }

/-- Helper: `should_fail_build` unfolded to the disjunction its
`if`/`elif` chain computes. -/
theorem should_fail_build_eq_true_iff (c h m l : Nat) (t : String) :
    should_fail_build c h m l t = true ↔
      (4 ≤ (severityLevels (pyUpper t)).getD 3 ∧ 0 < c) ∨
      (3 ≤ (severityLevels (pyUpper t)).getD 3 ∧ 0 < h) ∨
      (2 ≤ (severityLevels (pyUpper t)).getD 3 ∧ 0 < m) ∨
      (1 ≤ (severityLevels (pyUpper t)).getD 3 ∧ 0 < l) := by
  simp only [should_fail_build]
  split_ifs with h1 h2 h3 h4 <;> simp_all

/-- Helper: `parse_severity` always returns one of the four canonical
severity strings (in fact `severityMap` only ever yields those). -/
theorem parse_severity_canonical (s : String) :
    parse_severity s ∈ (["CRITICAL", "HIGH", "MEDIUM", "LOW"] : List String) := by
  unfold parse_severity severityMap
  split_ifs <;> simp

/-- C1: the spec says `should_fail_build` returns true iff some finding
has rank at least the threshold's rank, and in particular that counts
{critical 1, high 0} give true at threshold HIGH and at CRITICAL while
{medium 5} alone gives false at HIGH.  Evaluating the embedded source
shows the code disagrees on two of the three examples: at threshold
HIGH a critical-only result does NOT fail the build, while a
medium-only result DOES.  The `elif` chain guards each severity bucket
with `threshold_level >= rank(bucket)`, so the comparison is inverted
relative to the documented threshold semantics. -/
theorem should_fail_build_spec_examples :
    should_fail_build 1 0 0 0 "HIGH" = false ∧
    should_fail_build 1 0 0 0 "CRITICAL" = true ∧
    should_fail_build 0 0 5 0 "HIGH" = true := by
  refine ⟨by decide, by decide, by decide⟩

/-- C7: `should_fail_build` is monotone in the counts: raising any
single severity counter from 0 to a positive value can flip the result
only from false to true, never from true to false.  This holds for the
code as written (each counter occurs only positively in the decision),
for every threshold string. -/
theorem should_fail_build_monotone (threshold : String) (c h m l k : Nat) :
    (should_fail_build 0 h m l threshold = true →
      should_fail_build k h m l threshold = true) ∧
    (should_fail_build c 0 m l threshold = true →
      should_fail_build c k m l threshold = true) ∧
    (should_fail_build c h 0 l threshold = true →
      should_fail_build c h k l threshold = true) ∧
    (should_fail_build c h m 0 threshold = true →
      should_fail_build c h m k threshold = true) := by
  refine ⟨?_, ?_, ?_, ?_⟩ <;>
    · intro htrue
      rw [should_fail_build_eq_true_iff] at htrue ⊢
      rcases htrue with ⟨h1, h2⟩ | ⟨h1, h2⟩ | ⟨h1, h2⟩ | ⟨h1, h2⟩ <;> omega

/-- Witness for C7 at a concrete input: threshold HIGH with one high
finding fails the build, and still fails after raising the critical
count from 0 to 7. -/
theorem should_fail_build_monotone_witness :
    should_fail_build 7 1 0 0 "HIGH" = true :=
  (should_fail_build_monotone "HIGH" 0 1 0 0 7).1 (by decide)

/-- C10: a finding whose severity string is not one of the four
canonical names (case-insensitively) is excluded by
`filter_by_severity` at every `min_severity` level, because it is
ranked 0 there, below the minimum level which is always at least 1 —
even though `parse_severity` normalizes the same unrecognized string to
LOW. -/
theorem unrecognized_severity_always_filtered
    (vulnerabilities : List VulnerabilityResult) (v : VulnerabilityResult)
    (min_severity : String)
    (hv : pyUpper v.severity ∉ (["CRITICAL", "HIGH", "MEDIUM", "LOW"] : List String)) :
    v ∉ filter_by_severity vulnerabilities min_severity ∧
      parse_severity v.severity = "LOW" := by
  simp only [List.mem_cons, List.not_mem_nil, or_false, not_or] at hv
  obtain ⟨hc, hh, hm, hl⟩ := hv
  have hlev : severityLevels (pyUpper v.severity) = none := by
    unfold severityLevels
    split_ifs <;> simp_all
  constructor
  · intro hmem
    unfold filter_by_severity at hmem
    rw [List.mem_filter] at hmem
    have hmin : 1 ≤ (severityLevels (pyUpper min_severity)).getD 1 := by
      unfold severityLevels
      split_ifs <;> simp
    rw [hlev] at hmem
    simp only [Option.getD_none, decide_eq_true_eq] at hmem
    omega
  · unfold parse_severity severityMap
    split_ifs <;> simp_all

/-- Witness for C10 at a concrete input: a finding with severity
NEGLIGIBLE is dropped even at `min_severity` LOW, while `parse_severity`
would have normalized that severity to LOW. -/
theorem unrecognized_severity_always_filtered_witness :
    ({ cve_id := "CVE-0000-0001", severity := "NEGLIGIBLE", package_name := "p",
       package_version := "1", fixed_version := "", description := "",
       references := [] } : VulnerabilityResult) ∉
      filter_by_severity
        [{ cve_id := "CVE-0000-0001", severity := "NEGLIGIBLE", package_name := "p",
           package_version := "1", fixed_version := "", description := "",
           references := [] }] "LOW" ∧
      parse_severity "NEGLIGIBLE" = "LOW" :=
  unrecognized_severity_always_filtered _ _ "LOW" (by decide)

/-- Helper: the conjunction of the two Boolean filters of
`apply_exceptions` (scope-and-active from the query, `is_valid` from
the set comprehension), unfolded to the semantic condition on the
exception row's fields. -/
theorem scope_active_valid_iff (now : Int) (img : String) (e : ScanExceptionRec) :
    ((matchesScope img e && e.is_active) = true ∧ is_valid now e = true) ↔
      ((e.image_name = some img ∨ e.image_name = none) ∧ e.is_active = true ∧
        (e.expires_at = none ∨ ∃ t, e.expires_at = some t ∧ now ≤ t)) := by
  unfold matchesScope is_valid is_expired
  cases hx : e.expires_at with
  | none =>
      simp only [Bool.and_eq_true, Bool.or_eq_true, beq_iff_eq, Bool.not_false,
        Bool.and_true, reduceCtorEq, false_and, exists_false, or_false]
      tauto
  | some t =>
      simp only [Bool.and_eq_true, Bool.or_eq_true, beq_iff_eq, Bool.not_eq_true',
        decide_eq_false_iff_not, Int.not_lt, reduceCtorEq, Option.some.injEq, false_or]
      constructor
      · rintro ⟨⟨hsc, ha⟩, _, hle⟩
        exact ⟨hsc, ha, t, rfl, hle⟩
      · rintro ⟨hsc, ha, t', ht', hle⟩
        cases ht'
        exact ⟨⟨hsc, ha⟩, ha, hle⟩

/-- Helper: a CVE id is in the excepted-CVE set computed by
`apply_exceptions` iff some exception row of the input list is in
scope, active, not yet expired, and names that CVE. -/
theorem mem_exceptedCves_iff (now : Int) (img : String)
    (excs : List ScanExceptionRec) (x : String) :
    (x ∈ ((excs.filter (fun ex => matchesScope img ex && ex.is_active)).filter
        (fun ex => is_valid now ex)).map (fun ex => ex.cve_id)) ↔
      ∃ e ∈ excs, ((e.image_name = some img ∨ e.image_name = none) ∧
        e.is_active = true ∧
        (e.expires_at = none ∨ ∃ t, e.expires_at = some t ∧ now ≤ t)) ∧
        e.cve_id = x := by
  simp only [List.mem_map, List.mem_filter]
  constructor
  · rintro ⟨e, ⟨⟨he, hP⟩, hQ⟩, hx⟩
    exact ⟨e, he, (scope_active_valid_iff now img e).mp ⟨hP, hQ⟩, hx⟩
  · rintro ⟨e, he, hE, hx⟩
    obtain ⟨hP, hQ⟩ := (scope_active_valid_iff now img e).mpr hE
    exact ⟨e, ⟨⟨he, hP⟩, hQ⟩, hx⟩

/-- C6 counterexample: an active global exception whose `expires_at`
equals the filter instant (so its expiry is NOT in the future) is
still applied — `datetime.utcnow() > expires_at` is false at equality,
so `is_valid` holds and the matching finding is removed.  This refutes
the claim's clause that only exceptions with no expiry or an expiry in
the future are ever applied. -/
theorem exception_expiring_at_filter_time_is_applied :
    apply_exceptions 100 "acme/api"
        [{ cve_id := "CVE-2021-44228", image_name := none,
           expires_at := some 100, is_active := true }]
        [{ cve_id := "CVE-2021-44228", severity := "CRITICAL",
           package_name := "log4j", package_version := "2.14.1",
           fixed_version := "2.17.0", description := "", references := [] }] = [] ∧
      ¬ ((100 : Int) < 100) := by
  exact ⟨by decide, by omega⟩

/-- C6 (amended): an exception whose `expires_at` lies strictly in the
past at filter time never removes any finding on its account,
regardless of `is_active`; and a finding is removed exactly when some
exception in scope (matching image name or global) is active and has
no expiry or an expiry not earlier than the filter time — an exception
expiring exactly at the filter instant is still applied. -/
theorem apply_exceptions_validity (now : Int) (img : String)
    (excs : List ScanExceptionRec) (vulns : List VulnerabilityResult)
    (v : VulnerabilityResult) :
    (v ∈ apply_exceptions now img excs vulns ↔
      v ∈ vulns ∧ ∀ e ∈ excs,
        (e.image_name = some img ∨ e.image_name = none) →
        e.is_active = true →
        (e.expires_at = none ∨ ∃ t, e.expires_at = some t ∧ now ≤ t) →
        e.cve_id ≠ v.cve_id) ∧
    (∀ e : ScanExceptionRec, ∀ t : Int, e.expires_at = some t → t < now →
      apply_exceptions now img (e :: excs) vulns =
        apply_exceptions now img excs vulns) := by
  constructor
  · simp only [apply_exceptions]
    split_ifs with hempty
    · rw [List.isEmpty_iff] at hempty
      constructor
      · intro hv
        refine ⟨hv, ?_⟩
        intro e he hscope hact hexp heq
        have hmem : e.cve_id ∈ ((excs.filter
            (fun ex => matchesScope img ex && ex.is_active)).filter
            (fun ex => is_valid now ex)).map (fun ex => ex.cve_id) :=
          (mem_exceptedCves_iff now img excs e.cve_id).mpr
            ⟨e, he, ⟨hscope, hact, hexp⟩, rfl⟩
        rw [hempty] at hmem
        exact absurd hmem (List.not_mem_nil _)
      · exact fun hh => hh.1
    · rw [List.mem_filter]
      constructor
      · rintro ⟨hv, hc⟩
        refine ⟨hv, ?_⟩
        intro e he hscope hact hexp heq
        have hmem : v.cve_id ∈ ((excs.filter
            (fun ex => matchesScope img ex && ex.is_active)).filter
            (fun ex => is_valid now ex)).map (fun ex => ex.cve_id) :=
          (mem_exceptedCves_iff now img excs v.cve_id).mpr
            ⟨e, he, ⟨hscope, hact, hexp⟩, heq⟩
        simp only [Bool.not_eq_true', List.contains, List.elem_eq_mem,
          decide_eq_false_iff_not] at hc
        exact hc hmem
      · rintro ⟨hv, hall⟩
        refine ⟨hv, ?_⟩
        simp only [Bool.not_eq_true', List.contains, List.elem_eq_mem,
          decide_eq_false_iff_not]
        intro hmem
        obtain ⟨e, he, hE, heq⟩ :=
          (mem_exceptedCves_iff now img excs v.cve_id).mp hmem
        exact hall e he hE.1 hE.2.1 hE.2.2 heq
  · intro e t het hlt
    have hval : is_valid now e = false := by
      unfold is_valid is_expired
      rw [het]
      simp [hlt]
    have hfe : List.filter (fun ex => is_valid now ex)
        (List.filter (fun ex => matchesScope img ex && ex.is_active) (e :: excs)) =
        List.filter (fun ex => is_valid now ex)
          (List.filter (fun ex => matchesScope img ex && ex.is_active) excs) := by
      rw [List.filter_cons]
      by_cases hP : (matchesScope img e && e.is_active) = true
      · rw [if_pos hP, List.filter_cons, if_neg (by simp [hval])]
      · rw [if_neg hP]
    simp only [apply_exceptions, hfe]

/-- Witness for C6 (amended) at a concrete input: an exception expired
in the past at filter time leaves the finding list alone (both via the
membership characterization and via the cons-irrelevance part). -/
theorem apply_exceptions_validity_witness :
    (sampleFinding ∈ [sampleFinding] ∧ ∀ e ∈ [pastException],
        (e.image_name = some "img" ∨ e.image_name = none) →
        e.is_active = true →
        (e.expires_at = none ∨ ∃ t, e.expires_at = some t ∧ (50 : Int) ≤ t) →
        e.cve_id ≠ sampleFinding.cve_id) ∧
      apply_exceptions 50 "img" [pastException] [sampleFinding] =
        apply_exceptions 50 "img" [] [sampleFinding] := by
  constructor
  · exact ((apply_exceptions_validity 50 "img" [pastException] [sampleFinding]
      sampleFinding).1).mp (by decide)
  · exact (apply_exceptions_validity 50 "img" [] [sampleFinding]
      sampleFinding).2 pastException 10 rfl (by omega)

/-- C8: exception filtering is idempotent — applying
`apply_exceptions` twice with the same exception set yields the same
filtered finding list as applying it once. -/
theorem apply_exceptions_idempotent (now : Int) (img : String)
    (excs : List ScanExceptionRec) (vulns : List VulnerabilityResult) :
    apply_exceptions now img excs (apply_exceptions now img excs vulns) =
      apply_exceptions now img excs vulns := by
  simp only [apply_exceptions]
  split_ifs with hempty
  · rfl
  · rw [List.filter_filter]
    simp only [Bool.and_self]

/-- Helper: `countsStep` at key CRITICAL assigns the critical counter
and adds to the total. -/
theorem countsStep_eval_critical (r : ScanRecordCounts) (k : Nat) :
    countsStep r ("CRITICAL", k) =
      ⟨k, r.high_count, r.medium_count, r.low_count,
        r.total_vulnerabilities + k⟩ := by
  simp only [countsStep]
  rw [if_pos (by decide)]

/-- Helper: `countsStep` at key HIGH assigns the high counter and adds
to the total. -/
theorem countsStep_eval_high (r : ScanRecordCounts) (k : Nat) :
    countsStep r ("HIGH", k) =
      ⟨r.critical_count, k, r.medium_count, r.low_count,
        r.total_vulnerabilities + k⟩ := by
  simp only [countsStep]
  rw [if_neg (by decide), if_pos (by decide)]

/-- Helper: `countsStep` at key MEDIUM assigns the medium counter and
adds to the total. -/
theorem countsStep_eval_medium (r : ScanRecordCounts) (k : Nat) :
    countsStep r ("MEDIUM", k) =
      ⟨r.critical_count, r.high_count, k, r.low_count,
        r.total_vulnerabilities + k⟩ := by
  simp only [countsStep]
  rw [if_neg (by decide), if_neg (by decide), if_pos (by decide)]

/-- Helper: `countsStep` at key LOW assigns the low counter and adds to
the total. -/
theorem countsStep_eval_low (r : ScanRecordCounts) (k : Nat) :
    countsStep r ("LOW", k) =
      ⟨r.critical_count, r.high_count, r.medium_count, k,
        r.total_vulnerabilities + k⟩ := by
  simp only [countsStep]
  rw [if_neg (by decide), if_neg (by decide), if_neg (by decide),
    if_pos (by decide)]

/-- Helper: `counterOf` evaluated at each canonical key. -/
theorem counterOf_eval_critical (r : ScanRecordCounts) :
    counterOf r "CRITICAL" = r.critical_count := by
  simp only [counterOf]
  rw [if_pos (by decide)]

/-- Helper: `counterOf` at key HIGH. -/
theorem counterOf_eval_high (r : ScanRecordCounts) :
    counterOf r "HIGH" = r.high_count := by
  simp only [counterOf]
  rw [if_neg (by decide), if_pos (by decide)]

/-- Helper: `counterOf` at key MEDIUM. -/
theorem counterOf_eval_medium (r : ScanRecordCounts) :
    counterOf r "MEDIUM" = r.medium_count := by
  simp only [counterOf]
  rw [if_neg (by decide), if_neg (by decide), if_pos (by decide)]

/-- Helper: `counterOf` at key LOW. -/
theorem counterOf_eval_low (r : ScanRecordCounts) :
    counterOf r "LOW" = r.low_count := by
  simp only [counterOf]
  rw [if_neg (by decide), if_neg (by decide), if_neg (by decide),
    if_pos (by decide)]

/-- Helper: processing a group with one canonical key leaves the
counter of every other canonical key unchanged. -/
theorem counterOf_countsStep_ne (r : ScanRecordCounts) (s q : String) (k : Nat)
    (hq : q ∈ (["CRITICAL", "HIGH", "MEDIUM", "LOW"] : List String))
    (hs : s ∈ (["CRITICAL", "HIGH", "MEDIUM", "LOW"] : List String))
    (hne : q ≠ s) :
    counterOf (countsStep r (s, k)) q = counterOf r q := by
  fin_cases hq <;> fin_cases hs <;>
    first
      | exact absurd rfl hne
      | simp [countsStep_eval_critical, countsStep_eval_high,
          countsStep_eval_medium, countsStep_eval_low,
          counterOf_eval_critical, counterOf_eval_high,
          counterOf_eval_medium, counterOf_eval_low]

/-- Helper: one `countsStep` at a canonical key whose counter is still
zero preserves the total-equals-sum invariant. -/
theorem countsStep_total_sum (r : ScanRecordCounts) (s : String) (k : Nat)
    (hs : s ∈ (["CRITICAL", "HIGH", "MEDIUM", "LOW"] : List String))
    (hz : counterOf r s = 0)
    (hsum : r.total_vulnerabilities =
      r.critical_count + r.high_count + r.medium_count + r.low_count) :
    (countsStep r (s, k)).total_vulnerabilities =
      (countsStep r (s, k)).critical_count +
      (countsStep r (s, k)).high_count +
      (countsStep r (s, k)).medium_count +
      (countsStep r (s, k)).low_count := by
  fin_cases hs <;>
    simp_all [countsStep_eval_critical, countsStep_eval_high,
      countsStep_eval_medium, countsStep_eval_low,
      counterOf_eval_critical, counterOf_eval_high,
      counterOf_eval_medium, counterOf_eval_low] <;>
    omega

/-- Helper: folding grouped counts with pairwise-distinct canonical
keys, starting from a record whose about-to-be-assigned counters are
all zero and whose total already equals the sum of the four counters,
preserves that equality. -/
theorem fold_counts_total (counts : List (String × Nat)) (r : ScanRecordCounts)
    (hkeys : ∀ p ∈ counts, p.1 ∈ (["CRITICAL", "HIGH", "MEDIUM", "LOW"] : List String))
    (hnodup : (counts.map Prod.fst).Nodup)
    (hzero : ∀ p ∈ counts, counterOf r p.1 = 0)
    (hsum : r.total_vulnerabilities =
      r.critical_count + r.high_count + r.medium_count + r.low_count) :
    (counts.foldl countsStep r).total_vulnerabilities =
      (counts.foldl countsStep r).critical_count +
      (counts.foldl countsStep r).high_count +
      (counts.foldl countsStep r).medium_count +
      (counts.foldl countsStep r).low_count := by
  induction counts generalizing r with
  | nil => simpa using hsum
  | cons p rest ih =>
      obtain ⟨s, k⟩ := p
      simp only [List.foldl_cons]
      have hsmem : s ∈ (["CRITICAL", "HIGH", "MEDIUM", "LOW"] : List String) :=
        hkeys (s, k) (List.mem_cons_self _ _)
      have hz : counterOf r s = 0 := hzero (s, k) (List.mem_cons_self _ _)
      simp only [List.map_cons, List.nodup_cons] at hnodup
      apply ih
      · intro p hp
        exact hkeys p (List.mem_cons_of_mem _ hp)
      · exact hnodup.2
      · intro p hp
        have hpmem : p.1 ∈ (["CRITICAL", "HIGH", "MEDIUM", "LOW"] : List String) :=
          hkeys p (List.mem_cons_of_mem _ hp)
        have hne : p.1 ≠ s := by
          intro hcontra
          exact hnodup.1 (hcontra ▸ List.mem_map_of_mem Prod.fst hp)
        rw [counterOf_countsStep_ne r s p.1 k hpmem hsmem hne]
        exact hzero p (List.mem_cons_of_mem _ hp)
      · exact countsStep_total_sum r s k hsmem hz hsum

/-- C4: after the count-recomputation step, `total_vulnerabilities`
equals `critical_count + high_count + medium_count + low_count`, and
the five counters are reset to zero before being set from the grouped
severities of the findings that remain after exception filtering: the
result does not depend on the counter values held before the step.
The hypotheses are what the pipeline guarantees about the
`GROUP BY severity` input: the group keys are pairwise distinct, and
each stored severity is one of the four canonical names because every
backend stores `parse_severity` output (see `parse_severity_canonical`)
or canonical literals. -/
theorem update_vulnerability_counts_invariant (r : ScanRecordCounts)
    (counts : List (String × Nat))
    (hkeys : ∀ p ∈ counts, p.1 ∈ (["CRITICAL", "HIGH", "MEDIUM", "LOW"] : List String))
    (hnodup : (counts.map Prod.fst).Nodup) :
    ((update_vulnerability_counts r counts).total_vulnerabilities =
      (update_vulnerability_counts r counts).critical_count +
      (update_vulnerability_counts r counts).high_count +
      (update_vulnerability_counts r counts).medium_count +
      (update_vulnerability_counts r counts).low_count) ∧
    ∀ r' : ScanRecordCounts,
      update_vulnerability_counts r' counts = update_vulnerability_counts r counts := by
  constructor
  · have hreset : update_vulnerability_counts r counts =
        counts.foldl countsStep ⟨0, 0, 0, 0, 0⟩ := rfl
    rw [hreset]
    apply fold_counts_total counts ⟨0, 0, 0, 0, 0⟩ hkeys hnodup
    · intro p hp
      unfold counterOf
      split_ifs <;> rfl
    · rfl
  · intro r'
    rfl

/-- Witness for C4 at a concrete input: grouped counts CRITICAL 2 and
LOW 3 over a record with stale counters 9 everywhere. -/
theorem update_vulnerability_counts_invariant_witness :
    ((update_vulnerability_counts ⟨9, 9, 9, 9, 9⟩
        [("CRITICAL", 2), ("LOW", 3)]).total_vulnerabilities =
      (update_vulnerability_counts ⟨9, 9, 9, 9, 9⟩
        [("CRITICAL", 2), ("LOW", 3)]).critical_count +
      (update_vulnerability_counts ⟨9, 9, 9, 9, 9⟩
        [("CRITICAL", 2), ("LOW", 3)]).high_count +
      (update_vulnerability_counts ⟨9, 9, 9, 9, 9⟩
        [("CRITICAL", 2), ("LOW", 3)]).medium_count +
      (update_vulnerability_counts ⟨9, 9, 9, 9, 9⟩
        [("CRITICAL", 2), ("LOW", 3)]).low_count) ∧
    ∀ r' : ScanRecordCounts,
      update_vulnerability_counts r' [("CRITICAL", 2), ("LOW", 3)] =
        update_vulnerability_counts ⟨9, 9, 9, 9, 9⟩ [("CRITICAL", 2), ("LOW", 3)] :=
  update_vulnerability_counts_invariant ⟨9, 9, 9, 9, 9⟩
    [("CRITICAL", 2), ("LOW", 3)] (by decide) (by decide)

/-- C2: the claim says the chart arrays always have length `days`, an
empty calendar day contributes a zero-filled bucket and a non-empty
day contributes the sums of that day's per-scan severity counts.
Evaluating the embedded source refutes both halves: with zero scans in
the window (so the first day is empty) the loop raises `NameError`
instead of returning seven zero-filled buckets, because the loop
variables are first assigned inside the `if day_scans:` branch; and a
day with one scan carrying 5 critical findings yields bucket value 0,
not 5, because the branch overwrites the computed sums with zeros. -/
theorem get_chart_data_window_bug :
    get_chart_data [] 1 7 100 =
      Except.error "NameError: name critical is not defined" ∧
    get_chart_data [⟨1, some 99, some 5, some 0, some 0, some 0⟩] 1 1 100 =
      Except.ok ⟨[99], [0], [0], [0], [0]⟩ := by
  exact ⟨rfl, rfl⟩

/-- C3: the per-channel aggregation the dispatcher builds is as the
claim describes — every configured channel contributes exactly one
`{config_name, success, message}` entry and one channel's exception
never suppresses the others' entries (shown at the claim's example:
an unreachable chat webhook together with a succeeding email gives a
failure entry and a success entry side by side) — but the claim that
the dispatcher returns this report to the caller is false:
`send_vulnerability_alert` and `send_scan_completion_notification`
populate `results` and fall off the end without a `return` statement,
so the caller receives `None`, contradicting their declared
`Dict[str, List[Dict]]` return type and docstrings. -/
theorem notification_dispatch_missing_result :
    (∀ (s e : List ChannelService) (n : Nat),
      send_vulnerability_alert s e n = none ∧
      send_scan_completion_notification s e = none ∧
      (vulnerabilityAlertResults s e).slack.length = s.length ∧
      (vulnerabilityAlertResults s e).email.length = e.length ∧
      (completionResults s e).slack.length = s.length ∧
      (completionResults s e).email.length = e.length) ∧
    vulnerabilityAlertResults
        [⟨"chat-1", .raised "webhook unreachable", .raised "webhook unreachable"⟩]
        [⟨"email-1", .returned true, .returned true⟩] =
      ⟨[⟨"chat-1", false, "Error: webhook unreachable"⟩], [],
        [⟨"email-1", true, "Alert sent successfully"⟩]⟩ := by
  constructor
  · intro s e n
    refine ⟨rfl, rfl, ?_, ?_, ?_, ?_⟩ <;>
      simp [vulnerabilityAlertResults, completionResults]
  · decide

/-- C5: for every valid image name and tag, `TrivyScanner.scan_image`
never throws and returns a `ScanResult` carrying the measured
duration, with status SUCCESS and the parsed findings on exit code 0,
FAILED with no findings and the captured stderr retained in
`scan_output` on a non-zero exit, TIMEOUT with no findings when the
subprocess exceeds its timeout budget, and ERROR with no findings on
any other invocation error. -/
theorem trivy_scan_image_status_mapping (image_name image_tag : String)
    (outcome : ProcOutcome) (parse : String → List VulnerabilityResult)
    (version : String) (elapsed : Nat)
    (hname : validate_image_name image_name = true)
    (htag : validate_image_tag image_tag = true) :
    ∃ r : ScanResult,
      trivy_scan_image image_name image_tag outcome parse version elapsed =
        Except.ok r ∧
      r.scan_duration_seconds = elapsed ∧
      match outcome with
      | .completed returncode stdout stderr =>
          if returncode = 0 then
            r.scan_status = "SUCCESS" ∧ r.vulnerabilities = parse stdout
          else
            r.scan_status = "FAILED" ∧ r.vulnerabilities = [] ∧
              ∃ pre, r.scan_output = pre ++ stderr
      | .timedOut => r.scan_status = "TIMEOUT" ∧ r.vulnerabilities = []
      | .invocationError msg =>
          r.scan_status = "ERROR" ∧ r.vulnerabilities = [] := by
  unfold trivy_scan_image
  rw [if_neg (by simp [hname]), if_neg (by simp [htag])]
  cases outcome with
  | completed rc out err =>
      dsimp only
      by_cases hrc : rc = 0
      · rw [if_pos (by simp [hrc])]
        refine ⟨_, rfl, rfl, ?_⟩
        rw [if_pos hrc]
        exact ⟨rfl, rfl⟩
      · rw [if_neg (by simp [hrc])]
        refine ⟨_, rfl, rfl, ?_⟩
        rw [if_neg hrc]
        exact ⟨rfl, rfl, out, rfl⟩
  | timedOut => exact ⟨_, rfl, rfl, rfl, rfl⟩
  | invocationError _ => exact ⟨_, rfl, rfl, rfl, rfl⟩

/-- Witness for C5 at a concrete input: scanning `nginx:latest` when
the binary invocation fails yields status ERROR, no findings, and the
measured duration. -/
theorem trivy_scan_image_status_mapping_witness :
    ∃ r : ScanResult,
      trivy_scan_image "nginx" "latest"
          (ProcOutcome.invocationError "FileNotFoundError: trivy")
          (fun _ => []) "unknown" 3 = Except.ok r ∧
      r.scan_duration_seconds = 3 ∧
      r.scan_status = "ERROR" ∧ r.vulnerabilities = [] :=
  trivy_scan_image_status_mapping "nginx" "latest"
    (ProcOutcome.invocationError "FileNotFoundError: trivy")
    (fun _ => []) "unknown" 3 (by decide) (by decide)

/-- C9: in demo mode, for every valid image name and tag the
registry-dependent scanner returns status SUCCESS with a finding set
that is determined by the image name alone (the same name with any
other tag yields the same findings — every branch of the generator is
a fixed two-finding list selected by keyword match), and the returned
metadata carries a `note` key flagging the data as simulated. -/
theorem clair_demo_scan_spec (image_name image_tag otherTag : String)
    (elapsed : Nat)
    (hname : validate_image_name image_name = true)
    (htag : validate_image_tag image_tag = true) :
    ∃ r : ScanResult,
      clair_scan_image image_name image_tag elapsed = Except.ok r ∧
      r.scan_status = "SUCCESS" ∧
      r.vulnerabilities = generate_sample_vulnerabilities image_name image_tag ∧
      generate_sample_vulnerabilities image_name image_tag =
        generate_sample_vulnerabilities image_name otherTag ∧
      r.vulnerabilities.length = 2 ∧
      (r.metadata.lookup "note").isSome = true := by
  unfold clair_scan_image
  rw [if_neg (by simp [hname]), if_neg (by simp [htag])]
  refine ⟨_, rfl, rfl, rfl, rfl, ?_, rfl⟩
  unfold generate_sample_vulnerabilities
  split_ifs <;> rfl

/-- Witness for C9 at a concrete input: an image name containing the
`ubuntu` keyword gets the curated two-finding set under any tag, with
the simulated-data note present. -/
theorem clair_demo_scan_spec_witness :
    ∃ r : ScanResult,
      clair_scan_image "myapp/ubuntu-base" "latest" 0 = Except.ok r ∧
      r.scan_status = "SUCCESS" ∧
      r.vulnerabilities =
        generate_sample_vulnerabilities "myapp/ubuntu-base" "latest" ∧
      generate_sample_vulnerabilities "myapp/ubuntu-base" "latest" =
        generate_sample_vulnerabilities "myapp/ubuntu-base" "v2" ∧
      r.vulnerabilities.length = 2 ∧
      (r.metadata.lookup "note").isSome = true :=
  clair_demo_scan_spec "myapp/ubuntu-base" "latest" "v2" 0 (by decide) (by decide)

end DockSafe
